import Mathlib

/-!
Formal model of the Kcal probe inventory and calibration tracker.

The Python sources are shallowly embedded as Lean definitions:

* `src/registration_page.py` — probe registration (`register_probe`,
  `SERVICE_LIFE`);
* `src/calibration_page.py` — calibration entry and persistence
  (`update_probe_calibration`, `calibration_page_apply`,
  `calculate_mv_from_ph`, the per-type entry widget bounds and the
  warning guards);
* the serial-number generator and the calibration record validator,
  which are not present in the source tree (only their callers are),
  are modelled from the specification and marked as such in their
  doc comments.

Dates are modelled as explicit year/month/day triples with Gregorian
day arithmetic; machine floats are modelled as exact rationals; the
JSON serialization of a calibration payload is modelled as the
association list it serializes.
-/

namespace Kcal

/-! ### Decimal digit rendering and parsing

Serial numbers and persisted dates are decimal-formatted strings
(`{Type}_{YYMM}_{seq:05d}`, `YYYY-MM-DD`).  `digitsAux` renders a
natural number most-significant digit first; the fuel argument makes
the recursion structural so that every definition below evaluates by
kernel reduction.
-/

/-- The decimal digit character for a value below ten. -/
def digitChar (n : Nat) : Char := Char.ofNat (48 + n)

/-- Render `n` in decimal, most significant digit first; `fuel` bounds
the recursion depth. -/
def digitsAux (fuel : Nat) (n : Nat) : List Char :=
  match fuel with
  | 0 => []
  | fuel + 1 =>
    if n < 10 then [digitChar n]
    else digitsAux fuel (n / 10) ++ [digitChar (n % 10)]

/-- Decimal rendering of a natural number as a character list. -/
def natToDigits (n : Nat) : List Char := digitsAux (n + 1) n

/-- Parse a character list of decimal digits back into a natural
number (leading zeros are ignored, exactly as `int()` parsing of the
trailing serial-number field does). -/
def parseDigits (l : List Char) : Nat :=
  l.foldl (fun acc c => acc * 10 + (c.toNat - 48)) 0

/-- Zero-pad the decimal rendering of `n` on the left to width `w`,
the `"%05d"`-style formatting used by serial numbers. -/
def padDigits (w : Nat) (n : Nat) : List Char :=
  List.replicate (w - (natToDigits n).length) '0' ++ natToDigits n

theorem toNat_digitChar (d : Nat) (h : d < 10) : (digitChar d).toNat = 48 + d := by
  interval_cases d <;> rfl

theorem digitChar_ne_underscore (d : Nat) (h : d < 10) : digitChar d ≠ '_' := by
  interval_cases d <;> decide

theorem parseDigits_append_singleton (l : List Char) (c : Char) :
    parseDigits (l ++ [c]) = parseDigits l * 10 + (c.toNat - 48) := by
  simp [parseDigits, List.foldl_append]

theorem parseDigits_digitsAux (fuel n : Nat) (h : n < fuel) :
    parseDigits (digitsAux fuel n) = n := by
  induction fuel generalizing n with
  | zero => omega
  | succ fuel ih =>
    rw [digitsAux]
    by_cases h10 : n < 10
    · simp [h10, parseDigits, toNat_digitChar n h10]
    · have hdiv : n / 10 < fuel := by
        have : n / 10 < n := Nat.div_lt_self (by omega) (by omega)
        omega
      simp only [h10, if_false]
      rw [parseDigits_append_singleton, ih (n / 10) hdiv,
        toNat_digitChar (n % 10) (Nat.mod_lt n (by omega))]
      omega

theorem parseDigits_natToDigits (n : Nat) : parseDigits (natToDigits n) = n :=
  parseDigits_digitsAux (n + 1) n (Nat.lt_succ_self n)

theorem foldl_replicate_zeroChar (k : Nat) :
    List.foldl (fun acc c => acc * 10 + (c.toNat - 48)) 0 (List.replicate k '0') = 0 := by
  induction k with
  | zero => rfl
  | succ k ih => simpa [List.replicate_succ] using ih

theorem parseDigits_replicate_zero (k : Nat) (l : List Char) :
    parseDigits (List.replicate k '0' ++ l) = parseDigits l := by
  simp [parseDigits, List.foldl_append, foldl_replicate_zeroChar]

theorem parseDigits_padDigits (w n : Nat) : parseDigits (padDigits w n) = n := by
  rw [padDigits, parseDigits_replicate_zero, parseDigits_natToDigits]

theorem digitsAux_ne_underscore (fuel n : Nat) :
    ∀ c ∈ digitsAux fuel n, c ≠ '_' := by
  induction fuel generalizing n with
  | zero => simp [digitsAux]
  | succ fuel ih =>
    intro c hc
    rw [digitsAux] at hc
    by_cases h10 : n < 10
    · simp [h10] at hc
      subst hc
      exact digitChar_ne_underscore n h10
    · simp [h10] at hc
      rcases hc with hc | hc
      · exact ih (n / 10) c hc
      · subst hc
        exact digitChar_ne_underscore (n % 10) (Nat.mod_lt n (by omega))

theorem padDigits_ne_underscore (w n : Nat) : ∀ c ∈ padDigits w n, c ≠ '_' := by
  intro c hc
  rw [padDigits, List.mem_append] at hc
  rcases hc with hc | hc
  · rw [List.eq_of_mem_replicate hc]
    decide
  · exact digitsAux_ne_underscore (n + 1) n c hc

/-! ### The trailing field of a serial number

The serial-number generator parses "the numeric suffix after the last
underscore" of each existing serial.  `lastField` extracts that suffix
and `trailingSeq` parses it.
-/

/-- The suffix of a character list strictly after its last `'_'`
(the whole list when no underscore occurs). -/
def lastField (l : List Char) : List Char :=
  (l.reverse.takeWhile (fun c => c != '_')).reverse

/-- The trailing sequence number of a serial string: the decimal
value of the field after the last underscore. -/
def trailingSeq (s : String) : Nat := parseDigits (lastField s.data)

theorem takeWhile_append_of_all (p : Char → Bool) (a b : List Char)
    (h : ∀ c ∈ a, p c = true) :
    (a ++ b).takeWhile p = a ++ b.takeWhile p := by
  induction a with
  | nil => simp
  | cons x xs ih =>
    have hx : p x = true := h x (by simp)
    simp only [List.cons_append, List.takeWhile_cons, hx, if_true]
    rw [ih (fun c hc => h c (by simp [hc]))]

theorem lastField_append (xs ys : List Char) (h : ∀ c ∈ ys, c ≠ '_') :
    lastField (xs ++ '_' :: ys) = ys := by
  rw [lastField, List.reverse_append, List.reverse_cons, List.append_assoc]
  rw [takeWhile_append_of_all _ ys.reverse _ (by
    intro c hc
    have := h c (List.mem_reverse.mp hc)
    simpa using this)]
  have : List.takeWhile (fun c => c != '_') (['_'] ++ xs.reverse) = [] := by
    simp [List.takeWhile_cons]
  rw [this, List.append_nil, List.reverse_reverse]

/-! ### Dates

All dates are persisted as `YYYY-MM-DD` strings
(`datetime.strftime("%Y-%m-%d")`).  `addDays` iterates Gregorian
successor days, matching `timedelta(days = n)` arithmetic.
-/

/-- A calendar date. -/
structure Date where
  year : Nat
  month : Nat
  day : Nat
deriving DecidableEq

/-- Gregorian leap-year rule. -/
def isLeapYear (y : Nat) : Bool :=
  (y % 4 == 0 && y % 100 != 0) || y % 400 == 0

/-- Number of days of a month in a given year. -/
def daysInMonth (y m : Nat) : Nat :=
  if m == 2 then (if isLeapYear y then 29 else 28)
  else if m == 4 || m == 6 || m == 9 || m == 11 then 30
  else 31

/-- The day after a given date. -/
def nextDay (d : Date) : Date :=
  if d.day < daysInMonth d.year d.month then ⟨d.year, d.month, d.day + 1⟩
  else if d.month < 12 then ⟨d.year, d.month + 1, 1⟩
  else ⟨d.year + 1, 1, 1⟩

/-- Addition of days, `timedelta(days = n)`. -/
def addDays (d : Date) : Nat → Date
  | 0 => d
  | n + 1 => addDays (nextDay d) n

/-- Date formatting, `strftime("%Y-%m-%d")`. -/
def formatDate (d : Date) : String :=
  String.mk (padDigits 4 d.year ++ '-' :: (padDigits 2 d.month ++ '-' :: padDigits 2 d.day))

/-! ### Probe records

One row of the inventory table (`probe_data` in
`src/registration_page.py`).  The `Calibration Data` cell holds a
JSON-serialized dict; it is modelled as the association list being
serialized (`none` = no serialized payload has been written).  The
`Next Calibration` cell is absent until a calibration writes it.
-/

/-- One row of the inventory table. -/
structure Probe where
  serialNumber : String
  probeType : String
  manufacturer : String
  ketosPartNumber : String
  mfgPartNumber : String
  status : String
  entryDate : String
  lastModified : String
  changeDate : String
  nextCalibration : Option String
  calibrationData : Option (List (String × String))
  registeredBy : String
deriving DecidableEq

/-- Replace the first list element satisfying `p` by its image under
`f` (the `.index[0]` row update of `update_probe_calibration`). -/
def updateFirst (p : Probe → Bool) (f : Probe → Probe) : List Probe → List Probe
  | [] => []
  | x :: xs => if p x then f x :: xs else x :: updateFirst p f xs

/-- Python dict assignment `d[k] = v` on an insertion-ordered
association list: overwrite in place when the key exists, append
otherwise. -/
def dictInsert (k v : String) : List (String × String) → List (String × String)
  | [] => [(k, v)]
  | (k', v') :: rest =>
    if k' == k then (k, v) :: rest else (k', v') :: dictInsert k v rest

/-- The metadata stamping of `update_probe_calibration`:
setting the `calibration_date` key to today and then the `operator`
key to the username via dict assignment. -/
def withCalMeta (cal : List (String × String)) (today : Date) (user : String) :
    List (String × String) :=
  dictInsert "operator" user (dictInsert "calibration_date" (formatDate today) cal)

/-- The row mutation performed by `update_probe_calibration`
(`src/calibration_page.py`, lines 246-251): write the serialized
payload, stamp `Last Modified`, set `Next Calibration` to today plus
365 days, and set `Status` to `"Calibrated"`. -/
def applyCalibrationRow (cal : List (String × String)) (today : Date) (user : String)
    (p : Probe) : Probe :=
  { p with
    calibrationData := some (withCalMeta cal today user)
    lastModified := formatDate today
    nextCalibration := some (formatDate (addDays today 365))
    status := "Calibrated" }

/-- Embedding of `update_probe_calibration` (`src/calibration_page.py`, lines
224-257).  Returns the success flag together with the (session-state)
inventory after the call.  The serial-number presence check guards the
whole body; the row mutation happens unconditionally afterwards; the
returned flag is the result of `save_inventory`, which lives in the
`InventoryManager` class absent from the source tree and is therefore
modelled by the `saveOk` parameter.  The payload date-to-string
normalization loop is modelled by taking the payload as strings. -/
def update_probe_calibration (inv : List Probe) (serial : String)
    (cal : List (String × String)) (today : Date) (user : String) (saveOk : Bool) :
    Bool × List Probe :=
  if inv.all (fun p => p.serialNumber != serial) then (false, inv)
  else
    (saveOk,
      updateFirst (fun p => p.serialNumber == serial)
        (applyCalibrationRow cal today user) inv)

/-- The status gate of `calibration_page` (`src/calibration_page.py`,
lines 997-1051 and 1070-1080) around `update_probe_calibration`: the
page looks the probe up (`find_probe`, first row matching the serial),
returns without applying anything when it is absent or when its status
is `"Shipped"`, `"Scraped"`, or anything other than `"Instock"`, and
only then renders the form and saves. -/
def calibration_page_apply (inv : List Probe) (serial : String)
    (cal : List (String × String)) (today : Date) (user : String) (saveOk : Bool) :
    Bool × List Probe :=
  match inv.find? (fun p => p.serialNumber == serial) with
  | none => (false, inv)
  | some p =>
    if p.status == "Shipped" then (false, inv)
    else if p.status == "Scraped" then (false, inv)
    else if p.status != "Instock" then (false, inv)
    else update_probe_calibration inv serial cal today user saveOk

/-! ### Association-list and row-update lemmas -/

theorem lookup_dictInsert_self (k v : String) (l : List (String × String)) :
    (dictInsert k v l).lookup k = some v := by
  induction l with
  | nil => simp [dictInsert, List.lookup]
  | cons x rest ih =>
    obtain ⟨k', v'⟩ := x
    by_cases h : k' = k
    · simp [dictInsert, h, List.lookup]
    · have hb : (k == k') = false := beq_eq_false_iff_ne.mpr (Ne.symm h)
      simp [dictInsert, h, List.lookup, hb, ih]

theorem lookup_dictInsert_other (k v k₀ : String) (l : List (String × String))
    (h : k₀ ≠ k) : (dictInsert k v l).lookup k₀ = l.lookup k₀ := by
  have hb : (k₀ == k) = false := beq_eq_false_iff_ne.mpr h
  induction l with
  | nil => simp [dictInsert, List.lookup, hb]
  | cons x rest ih =>
    obtain ⟨k', v'⟩ := x
    by_cases hk : k' = k
    · subst hk
      simp [dictInsert, List.lookup, hb]
    · by_cases hk0 : k₀ = k'
      · subst hk0
        simp [dictInsert, hk, List.lookup]
      · have hb0 : (k₀ == k') = false := beq_eq_false_iff_ne.mpr hk0
        simp [dictInsert, hk, List.lookup, hb0, ih]

theorem find?_updateFirst (inv : List Probe) (s : String) (f : Probe → Probe)
    (hf : ∀ p, (f p).serialNumber = p.serialNumber) (p : Probe)
    (h : inv.find? (fun q => q.serialNumber == s) = some p) :
    (updateFirst (fun q => q.serialNumber == s) f inv).find?
      (fun q => q.serialNumber == s) = some (f p) := by
  induction inv with
  | nil => simp at h
  | cons x xs ih =>
    by_cases hx : x.serialNumber = s
    · rw [List.find?_cons_of_pos _ (by simpa using hx)] at h
      injection h with h
      subst h
      rw [updateFirst, if_pos (by simpa using hx)]
      rw [List.find?_cons_of_pos _ (by simp [hf, hx])]
    · rw [List.find?_cons_of_neg _ (by simpa using hx)] at h
      rw [updateFirst, if_neg (by simpa using hx)]
      rw [List.find?_cons_of_neg _ (by simpa using hx)]
      exact ih h

theorem all_ne_eq_false_of_find? (inv : List Probe) (s : String) (p : Probe)
    (h : inv.find? (fun q => q.serialNumber == s) = some p) :
    inv.all (fun q => q.serialNumber != s) = false := by
  have hmem : p ∈ inv := List.mem_of_find?_eq_some h
  have hps : p.serialNumber = s := by
    have := List.find?_some h
    simpa using this
  rw [← Bool.not_eq_true, List.all_eq_true]
  intro hall
  have := hall p hmem
  simp only [bne_iff_ne, ne_eq] at this
  exact this hps

/-! ### Claims about `update_probe_calibration` -/

/-- An inventory row already in `Calibrated` state, used to exercise
the status gate. -/
def probeCalibratedEx : Probe :=
  { serialNumber := "pH_2601_00001"
    probeType := "pH Probe"
    manufacturer := "Acme"
    ketosPartNumber := "400-00260"
    mfgPartNumber := "MPN-1"
    status := "Calibrated"
    entryDate := "2025-01-02"
    lastModified := "2025-01-02"
    changeDate := "2025-01-02"
    nextCalibration := none
    calibrationData := none
    registeredBy := "op" }

/-- C1 counterexample: `update_probe_calibration` itself performs no
status check.  Called directly on a record whose status is
`"Calibrated"` (not `"Instock"`), it reports success and rewrites the
calibration payload and next-calibration date of the record, contradicting
the claim that it must fail and leave both unchanged. -/
theorem C1_counterexample :
    probeCalibratedEx.status ≠ "Instock" ∧
    (update_probe_calibration [probeCalibratedEx] "pH_2601_00001" []
        ⟨2026, 1, 15⟩ "op" true).1 = true ∧
    (update_probe_calibration [probeCalibratedEx] "pH_2601_00001" []
        ⟨2026, 1, 15⟩ "op" true).2.map Probe.calibrationData
      ≠ [probeCalibratedEx.calibrationData] ∧
    (update_probe_calibration [probeCalibratedEx] "pH_2601_00001" []
        ⟨2026, 1, 15⟩ "op" true).2.map Probe.nextCalibration
      ≠ [probeCalibratedEx.nextCalibration] := by
  refine ⟨by decide, rfl, by decide, by decide⟩

/-- C1 amended: the INSTOCK gate is enforced one layer up, by
`calibration_page`.  For any record whose current status is not
`"Instock"`, the calibration page refuses to apply a calibration: it
signals no success and leaves the whole inventory — in particular the
calibration payload and next-calibration date of the record — unchanged.
`update_probe_calibration` itself checks only that the serial exists. -/
theorem C1_page_gate (inv : List Probe) (serial : String)
    (cal : List (String × String)) (today : Date) (user : String) (saveOk : Bool)
    (p : Probe) (hfind : inv.find? (fun q => q.serialNumber == serial) = some p)
    (hst : p.status ≠ "Instock") :
    calibration_page_apply inv serial cal today user saveOk = (false, inv) := by
  rw [calibration_page_apply, hfind]
  by_cases h1 : p.status = "Shipped"
  · simp [h1]
  · by_cases h2 : p.status = "Scraped"
    · simp [h1, h2]
    · simp [h1, h2, hst]

/-- Witness for `C1_page_gate` at a concrete shipped probe. -/
theorem C1_page_gate_witness :
    calibration_page_apply [{ probeCalibratedEx with status := "Shipped" }]
      "pH_2601_00001" [] ⟨2026, 1, 15⟩ "op" true
      = (false, [{ probeCalibratedEx with status := "Shipped" }]) :=
  C1_page_gate _ _ _ _ _ _ { probeCalibratedEx with status := "Shipped" }
    (by decide) (by decide)

/-- C2: on any record present in the inventory, a call to
`update_probe_calibration` whose save succeeds returns `true` and
leaves the record (looked up again by its serial) with status
`"Calibrated"`, `Last Modified` stamped to the current date,
`Next Calibration` set to the current date plus 365 days, and the
serialized payload stored in `Calibration Data` carrying the metadata
keys `calibration_date` (the current date in `YYYY-MM-DD` form, by
`formatDate`) and `operator`, with all other payload keys intact. -/
theorem C2_success_postconditions (inv : List Probe) (serial : String)
    (cal : List (String × String)) (today : Date) (user : String) (p : Probe)
    (hfind : inv.find? (fun q => q.serialNumber == serial) = some p) :
    (update_probe_calibration inv serial cal today user true).1 = true ∧
    ∃ p', (update_probe_calibration inv serial cal today user true).2.find?
        (fun q => q.serialNumber == serial) = some p' ∧
      p'.status = "Calibrated" ∧
      p'.lastModified = formatDate today ∧
      p'.nextCalibration = some (formatDate (addDays today 365)) ∧
      p'.calibrationData = some (withCalMeta cal today user) ∧
      (withCalMeta cal today user).lookup "calibration_date" = some (formatDate today) ∧
      (withCalMeta cal today user).lookup "operator" = some user ∧
      ∀ k, k ≠ "calibration_date" → k ≠ "operator" →
        (withCalMeta cal today user).lookup k = cal.lookup k := by
  have hall := all_ne_eq_false_of_find? inv serial p hfind
  constructor
  · rw [update_probe_calibration, hall]
    simp
  · refine ⟨applyCalibrationRow cal today user p, ?_, rfl, rfl, rfl, rfl, ?_, ?_, ?_⟩
    · rw [update_probe_calibration, hall]
      simp only [Bool.false_eq_true, if_false]
      exact find?_updateFirst inv serial (applyCalibrationRow cal today user)
        (fun q => rfl) p hfind
    · rw [withCalMeta, lookup_dictInsert_other _ _ _ _ (by decide),
        lookup_dictInsert_self]
    · rw [withCalMeta, lookup_dictInsert_self]
    · intro k hk1 hk2
      rw [withCalMeta, lookup_dictInsert_other _ _ _ _ hk2,
        lookup_dictInsert_other _ _ _ _ hk1]

/-- Witness for `C2_success_postconditions` on a concrete one-row
inventory. -/
theorem C2_success_postconditions_witness :
    (update_probe_calibration [{ probeCalibratedEx with status := "Instock" }]
        "pH_2601_00001" [("pH 7_calibrated", "7.00")] ⟨2026, 1, 15⟩ "op" true).1 = true ∧
    ∃ p', (update_probe_calibration [{ probeCalibratedEx with status := "Instock" }]
        "pH_2601_00001" [("pH 7_calibrated", "7.00")] ⟨2026, 1, 15⟩ "op" true).2.find?
        (fun q => q.serialNumber == "pH_2601_00001") = some p' ∧
      p'.status = "Calibrated" ∧
      p'.lastModified = formatDate ⟨2026, 1, 15⟩ ∧
      p'.nextCalibration = some (formatDate (addDays ⟨2026, 1, 15⟩ 365)) ∧
      p'.calibrationData = some (withCalMeta [("pH 7_calibrated", "7.00")] ⟨2026, 1, 15⟩ "op") ∧
      (withCalMeta [("pH 7_calibrated", "7.00")] ⟨2026, 1, 15⟩ "op").lookup "calibration_date"
        = some (formatDate ⟨2026, 1, 15⟩) ∧
      (withCalMeta [("pH 7_calibrated", "7.00")] ⟨2026, 1, 15⟩ "op").lookup "operator"
        = some "op" ∧
      ∀ k, k ≠ "calibration_date" → k ≠ "operator" →
        (withCalMeta [("pH 7_calibrated", "7.00")] ⟨2026, 1, 15⟩ "op").lookup k
          = [("pH 7_calibrated", "7.00")].lookup k :=
  C2_success_postconditions [{ probeCalibratedEx with status := "Instock" }]
    "pH_2601_00001" [("pH 7_calibrated", "7.00")] ⟨2026, 1, 15⟩ "op"
    { probeCalibratedEx with status := "Instock" } (by decide)

/-- C4: for a serial number absent from the inventory,
`update_probe_calibration` signals failure (returns `false`, after
showing the not-found error) and leaves every record unchanged. -/
theorem C4_not_found (inv : List Probe) (serial : String)
    (cal : List (String × String)) (today : Date) (user : String) (saveOk : Bool)
    (h : ∀ p ∈ inv, p.serialNumber ≠ serial) :
    update_probe_calibration inv serial cal today user saveOk = (false, inv) := by
  rw [update_probe_calibration, if_pos]
  rw [List.all_eq_true]
  intro p hp
  simpa using h p hp

/-- Witness for `C4_not_found` on a concrete inventory missing the
requested serial. -/
theorem C4_not_found_witness :
    update_probe_calibration [probeCalibratedEx] "DO_2801_00001" []
      ⟨2026, 1, 15⟩ "op" true = (false, [probeCalibratedEx]) :=
  C4_not_found [probeCalibratedEx] "DO_2801_00001" [] ⟨2026, 1, 15⟩ "op" true
    (by decide)

/-! ### Serial number generation and registration -/

/-- Embedding of `SERVICE_LIFE` (`src/registration_page.py`, lines 24-29) with the
`.get(probe_type, 2)` default of line 53: expected service life in
years per probe type. -/
def SERVICE_LIFE (probeType : String) : Nat :=
  if probeType == "pH Probe" then 2
  else if probeType == "ORP Probe" then 2
  else if probeType == "DO Probe" then 4
  else if probeType == "EC Probe" then 10
  else 2

/-- Calendar-year addition, `manufacturing_date + service_life_years`. -/
def addYears (d : Date) (n : Nat) : Date := ⟨d.year + n, d.month, d.day⟩

/-- Formatting of the expiry date as `YYMM`. -/
def formatYYMM (d : Date) : String :=
  String.mk (padDigits 2 (d.year % 100) ++ padDigits 2 d.month)

/-- The first whitespace-delimited token of a probe-type name
("pH Probe" becomes "pH"). -/
def firstToken (s : String) : String :=
  String.mk (s.data.takeWhile (fun c => c != ' '))

/-- The maximum trailing sequence number among a list of serials
(zero when the list is empty, so the first sequence issued is 1). -/
def maxTrailing (serials : List String) : Nat :=
  (serials.map trailingSeq).foldr max 0

/-- Modelled from the spec: `get_next_serial_number` lives in the
`InventoryManager` class, which is absent from the source tree (the
file `src/inventory_manager.py` holds a copy of the inventory-review
page instead); only its caller `src/registration_page.py`, line 55, is
present.  Per the specification the generator computes the expiry
year/month from the manufacturing date plus the per-type service life,
formats it `YYMM`, takes one plus the maximum trailing 5-digit sequence
number among the existing serials of the type (starting at 1 when none
exist), and assembles `Type_YYMM_seq` with the sequence zero-padded to
five digits. -/
def get_next_serial_number (probeType : String) (mfgDate : Date)
    (existingOfType : List String) : String :=
  String.mk ((firstToken probeType).data ++ '_' ::
    ((formatYYMM (addYears mfgDate (SERVICE_LIFE probeType))).data ++ '_' ::
      padDigits 5 (maxTrailing existingOfType + 1)))

/-- Probe registration (`src/registration_page.py`, lines 189-216):
require the manufacturer and both part numbers non-empty, generate the
serial, and append a fresh `Instock` row stamped with the current date.
The row append performed by `add_new_probe` is modelled from the spec
(the `InventoryManager` class is absent from the source tree).
Returns `none` on the missing-required-fields error path. -/
def register_probe (inv : List Probe) (manufacturer probeType mfgPartNumber ketosPartNumber : String)
    (mfgDate today : Date) (user : String) (existingOfType : List String) :
    Option (List Probe × String) :=
  if manufacturer == "" || mfgPartNumber == "" || ketosPartNumber == "" then none
  else
    some (inv ++
      [{ serialNumber := get_next_serial_number probeType mfgDate existingOfType
         probeType := probeType
         manufacturer := manufacturer
         ketosPartNumber := ketosPartNumber
         mfgPartNumber := mfgPartNumber
         status := "Instock"
         entryDate := formatDate today
         lastModified := formatDate today
         changeDate := formatDate today
         nextCalibration := none
         calibrationData := none
         registeredBy := user }],
      get_next_serial_number probeType mfgDate existingOfType)

/-- The serials produced by a sequence of registrations of the same
probe type: each call generates from the current snapshot of existing
serials of the type and appends its result to the snapshot. -/
def serialsFrom (probeType : String) (existing : List String) :
    List Date → List String
  | [] => []
  | d :: ds =>
    get_next_serial_number probeType d existing ::
      serialsFrom probeType (existing ++ [get_next_serial_number probeType d existing]) ds

theorem trailingSeq_mk (pre yymm : List Char) (n : Nat) :
    trailingSeq (String.mk (pre ++ '_' :: (yymm ++ '_' :: padDigits 5 n))) = n := by
  show parseDigits (lastField (pre ++ '_' :: (yymm ++ '_' :: padDigits 5 n))) = n
  have : pre ++ '_' :: (yymm ++ '_' :: padDigits 5 n)
      = (pre ++ '_' :: yymm) ++ '_' :: padDigits 5 n := by
    simp
  rw [this, lastField_append _ _ (padDigits_ne_underscore 5 n), parseDigits_padDigits]

theorem trailingSeq_generated (probeType : String) (mfgDate : Date)
    (existing : List String) :
    trailingSeq (get_next_serial_number probeType mfgDate existing)
      = maxTrailing existing + 1 :=
  trailingSeq_mk _ _ _

theorem maxTrailing_cons (s : String) (l : List String) :
    maxTrailing (s :: l) = max (trailingSeq s) (maxTrailing l) := rfl

theorem le_maxTrailing (l : List String) (s : String) (h : s ∈ l) :
    trailingSeq s ≤ maxTrailing l := by
  induction l with
  | nil => simp at h
  | cons x xs ih =>
    rw [maxTrailing_cons]
    rcases List.mem_cons.mp h with rfl | h
    · exact Nat.le_max_left _ _
    · exact le_trans (ih h) (Nat.le_max_right _ _)

theorem maxTrailing_append_one (l : List String) (s : String) :
    maxTrailing (l ++ [s]) = max (maxTrailing l) (trailingSeq s) := by
  induction l with
  | nil => simp [maxTrailing]
  | cons x xs ih =>
    rw [List.cons_append, maxTrailing_cons, ih, maxTrailing_cons]
    omega

theorem serialsFrom_gt (probeType : String) (ds : List Date) (existing : List String) :
    ∀ s ∈ serialsFrom probeType existing ds, maxTrailing existing < trailingSeq s := by
  induction ds generalizing existing with
  | nil => simp [serialsFrom]
  | cons d ds ih =>
    intro s hs
    rw [serialsFrom] at hs
    rcases List.mem_cons.mp hs with rfl | hs
    · rw [trailingSeq_generated]
      omega
    · have := ih _ s hs
      rw [maxTrailing_append_one, trailingSeq_generated] at this
      omega

theorem serialsFrom_pairwise (probeType : String) (ds : List Date)
    (existing : List String) :
    (serialsFrom probeType existing ds).Pairwise (· ≠ ·) := by
  induction ds generalizing existing with
  | nil => simp [serialsFrom]
  | cons d ds ih =>
    rw [serialsFrom]
    refine List.Pairwise.cons ?_ (ih _)
    intro s hs heq
    have h1 := serialsFrom_gt probeType ds _ s hs
    rw [maxTrailing_append_one, trailingSeq_generated, ← heq,
      trailingSeq_generated] at h1
    omega

/-- C3: issuing serial numbers through any sequence of registrations
of the same probe type — each generation reading the snapshot of
existing serials of that type and appending its output — produces
pairwise-distinct serials, none of which collides with a serial
already in the table.  Every fresh serial carries a trailing sequence
strictly above the maximum found in the snapshot, so uniqueness holds
whatever the starting table contains. -/
theorem C3_serial_uniqueness (probeType : String) (ds : List Date)
    (existing : List String) :
    (serialsFrom probeType existing ds).Pairwise (· ≠ ·) ∧
    ∀ s ∈ serialsFrom probeType existing ds, s ∉ existing := by
  refine ⟨serialsFrom_pairwise probeType ds existing, ?_⟩
  intro s hs hmem
  have h1 := serialsFrom_gt probeType ds existing s hs
  have h2 := le_maxTrailing existing s hmem
  omega

/-- Witness for `C3_serial_uniqueness`: two registrations over a table
already holding sequence 5 produce distinct serials 6 and 7, and the
first of them is not in the starting table. -/
theorem C3_serial_uniqueness_witness :
    (serialsFrom "pH Probe" ["pH_2601_00005"] [⟨2024, 1, 1⟩, ⟨2024, 2, 1⟩]).Pairwise (· ≠ ·) ∧
    "pH_2601_00006" ∉ ["pH_2601_00005"] := by
  refine ⟨(C3_serial_uniqueness "pH Probe" [⟨2024, 1, 1⟩, ⟨2024, 2, 1⟩] ["pH_2601_00005"]).1, ?_⟩
  exact (C3_serial_uniqueness "pH Probe" [⟨2024, 1, 1⟩, ⟨2024, 2, 1⟩] ["pH_2601_00005"]).2
    "pH_2601_00006" (by decide)

/-- C5: registering a pH probe manufactured 2024-01-01 into an
inventory with no prior pH probes yields serial `pH_2601_00001` — the
two-year pH service life gives expiry 2026-01, formatted `2601`, and
the first sequence is `00001` — and the registered row has status
`Instock`. -/
theorem C5_register_scenario :
    get_next_serial_number "pH Probe" ⟨2024, 1, 1⟩ [] = "pH_2601_00001" ∧
    ∃ inv', register_probe [] "Acme" "pH Probe" "MPN-1" "400-00260"
        ⟨2024, 1, 1⟩ ⟨2024, 1, 5⟩ "op" [] = some (inv', "pH_2601_00001") ∧
      ∀ p ∈ inv', p.status = "Instock" := by
  refine ⟨by decide, ?_⟩
  refine ⟨_, rfl, ?_⟩
  intro p hp
  rcases List.mem_cons.mp hp with rfl | hp
  · rfl
  · simp at hp

/-! ### Calibration entry bounds and warning guards

Machine floats from the entry widgets are modelled as exact
rationals.  Each `st.number_input` bound pair becomes the predicate
deciding whether a typed value is accepted by that widget.
-/

/-- Temperature bound of the pH entry form
(`src/calibration_page.py`, lines 327-334): `min_value=10.0`,
`max_value=40.0`. -/
def ph_temp_accept (t : ℚ) : Bool := decide (10 ≤ t) && decide (t ≤ 40)

/-- Temperature bound of the DO entry form
(`src/calibration_page.py`, lines 555-562): `min_value=0.0`,
`max_value=50.0`. -/
def do_temp_accept (t : ℚ) : Bool := decide (0 ≤ t) && decide (t ≤ 50)

/-- Temperature bound of the ORP entry form
(`src/calibration_page.py`, lines 704-711): `min_value=10.0`,
`max_value=40.0`. -/
def orp_temp_accept (t : ℚ) : Bool := decide (10 ≤ t) && decide (t ≤ 40)

/-- Temperature bound of the EC entry form
(`src/calibration_page.py`, lines 807-814): `min_value=10.0`,
`max_value=40.0`. -/
def ec_temp_accept (t : ℚ) : Bool := decide (10 ≤ t) && decide (t ≤ 40)

/-- The ORP deviation warning guard (`src/calibration_page.py`, line
776): a warning is emitted exactly when the final reading deviates
from the declared standard value by more than 10 mV. -/
def orp_deviation_warning (calibrated_mv standard_value : ℚ) : Bool :=
  decide (|calibrated_mv - standard_value| > 10)

/-- The pH slope warning guard (`src/calibration_page.py`, lines 494
and 505, identical for the pH 10 and pH 4 slope fields): the warning
fires when `slope > 85 or slope < 115`.  The slope widget itself
restricts input to the integer range 85..115. -/
def slope_warning_guard (v : ℤ) : Bool := decide (v > 85) || decide (v < 115)

/-! ### The pH calibration record validator (modelled from the spec) -/

/-- Initial and final reading of one pH buffer. -/
structure PhBufferReading where
  initial : ℚ
  final : ℚ
deriving DecidableEq

/-- A pH calibration payload: solution temperature plus the readings
for the pH 4, pH 7 and pH 10 buffers. -/
structure PhPayload where
  temperature : ℚ
  buf4 : PhBufferReading
  buf7 : PhBufferReading
  buf10 : PhBufferReading
deriving DecidableEq

/-- Boundary-inclusive tolerance band check: the final reading must
lie within `nominal - 0.2` and `nominal + 0.2`. -/
def phBandOK (nominal x : ℚ) : Bool :=
  decide (nominal - 1/5 ≤ x) && decide (x ≤ nominal + 1/5)

/-- Drift check: initial and final reading of a buffer must differ by
at most 0.5 pH units. -/
def driftOK (r : PhBufferReading) : Bool := decide (|r.final - r.initial| ≤ 1/2)

/-- Modelled from the spec: the Calibration Record Validator of §4.4
has no implementation in the source tree (the pH entry form in
`src/calibration_page.py` constrains only the widget input ranges and
emits slope/offset warnings; no tolerance-band or drift code exists
under `src/`).  Per the specification, each of the buffers 4, 7 and 10
must read within a boundary-inclusive band of ±0.2 around its nominal
value, drift between initial and final reading must not exceed 0.5 pH
units, and the common temperature must lie within 10–40 °C; each
violated rule yields one message and an empty list means valid. -/
def validate_ph (p : PhPayload) : List String :=
  (if phBandOK 4 p.buf4.final then [] else ["pH 4 final reading outside 3.8 to 4.2"]) ++
  (if driftOK p.buf4 then [] else ["pH 4 drift above 0.5"]) ++
  (if phBandOK 7 p.buf7.final then [] else ["pH 7 final reading outside 6.8 to 7.2"]) ++
  (if driftOK p.buf7 then [] else ["pH 7 drift above 0.5"]) ++
  (if phBandOK 10 p.buf10.final then [] else ["pH 10 final reading outside 9.8 to 10.2"]) ++
  (if driftOK p.buf10 then [] else ["pH 10 drift above 0.5"]) ++
  (if ph_temp_accept p.temperature then [] else ["temperature outside 10 to 40"])

theorem if_nil_singleton_eq_nil (b : Bool) (m : String) :
    (if b then ([] : List String) else [m]) = [] ↔ b = true := by
  cases b <;> simp

theorem phBandOK_iff (nominal x : ℚ) :
    phBandOK nominal x = true ↔ nominal - 1/5 ≤ x ∧ x ≤ nominal + 1/5 := by
  simp [phBandOK]

theorem driftOK_iff (r : PhBufferReading) :
    driftOK r = true ↔ |r.final - r.initial| ≤ 1/2 := by
  simp [driftOK]

theorem validate_ph_eq_nil_iff (p : PhPayload) :
    validate_ph p = [] ↔
      ((4 : ℚ) - 1/5 ≤ p.buf4.final ∧ p.buf4.final ≤ 4 + 1/5) ∧
      |p.buf4.final - p.buf4.initial| ≤ 1/2 ∧
      ((7 : ℚ) - 1/5 ≤ p.buf7.final ∧ p.buf7.final ≤ 7 + 1/5) ∧
      |p.buf7.final - p.buf7.initial| ≤ 1/2 ∧
      ((10 : ℚ) - 1/5 ≤ p.buf10.final ∧ p.buf10.final ≤ 10 + 1/5) ∧
      |p.buf10.final - p.buf10.initial| ≤ 1/2 ∧
      (10 ≤ p.temperature ∧ p.temperature ≤ 40) := by
  rw [validate_ph]
  simp only [List.append_eq_nil, if_nil_singleton_eq_nil, phBandOK_iff, driftOK_iff]
  simp [ph_temp_accept, and_assoc]

/-- A pH payload whose readings all sit at their nominal values except
the pH 7 final reading, which is the function argument. -/
def phPayloadAt (x : ℚ) : PhPayload :=
  { temperature := 25
    buf4 := ⟨4, 4⟩
    buf7 := ⟨7, x⟩
    buf10 := ⟨10, 10⟩ }

/-- C6: the bands of the pH validator are boundary-inclusive.  A payload
whose pH 7 final reading is exactly 7.2 or exactly 6.8 validates
cleanly, while 7.21 or 6.79 produces a violation; in general a payload
validates exactly when the final reading of every buffer lies within
nominal ± 0.2 (buffers 4, 7, 10), every buffer drifts at most 0.5 pH
units between initial and final reading, and the temperature is in
range. -/
theorem C6_ph_validator_boundary :
    validate_ph (phPayloadAt (36/5)) = [] ∧
    validate_ph (phPayloadAt (721/100)) ≠ [] ∧
    validate_ph (phPayloadAt (34/5)) = [] ∧
    validate_ph (phPayloadAt (679/100)) ≠ [] ∧
    (∀ p : PhPayload, validate_ph p = [] ↔
      ((4 : ℚ) - 1/5 ≤ p.buf4.final ∧ p.buf4.final ≤ 4 + 1/5) ∧
      |p.buf4.final - p.buf4.initial| ≤ 1/2 ∧
      ((7 : ℚ) - 1/5 ≤ p.buf7.final ∧ p.buf7.final ≤ 7 + 1/5) ∧
      |p.buf7.final - p.buf7.initial| ≤ 1/2 ∧
      ((10 : ℚ) - 1/5 ≤ p.buf10.final ∧ p.buf10.final ≤ 10 + 1/5) ∧
      |p.buf10.final - p.buf10.initial| ≤ 1/2 ∧
      (10 ≤ p.temperature ∧ p.temperature ≤ 40)) := by
  refine ⟨?_, ?_, ?_, ?_, validate_ph_eq_nil_iff⟩
  · rw [validate_ph_eq_nil_iff]
    norm_num [phPayloadAt, abs_le]
  · rw [Ne, validate_ph_eq_nil_iff]
    norm_num [phPayloadAt, abs_le]
  · rw [validate_ph_eq_nil_iff]
    norm_num [phPayloadAt, abs_le]
  · rw [Ne, validate_ph_eq_nil_iff]
    norm_num [phPayloadAt, abs_le]

/-- C7 counterexample: the specified acceptance band is not ±15 mV.
At a final reading of 237 mV against the 225 mV standard the deviation
is 12 mV — inside ±15 — yet the entry form emits the deviation
warning, because the source checks against ±10 mV. -/
theorem C7_counterexample :
    ¬ (orp_deviation_warning 237 225 = false ↔ |(237 : ℚ) - 225| ≤ 15) := by
  intro h
  have h1 : |(237 : ℚ) - 225| ≤ 15 := by norm_num
  have h2 := h.mpr h1
  norm_num [orp_deviation_warning] at h2

/-- C7 amended: the ORP final reading is accepted — no deviation
warning — exactly when it lies within ±10 mV of the declared standard
value; a deviation above 10 mV produces the warning. -/
theorem C7_orp_band (calibrated_mv standard_value : ℚ) :
    orp_deviation_warning calibrated_mv standard_value = false ↔
      |calibrated_mv - standard_value| ≤ 10 := by
  simp [orp_deviation_warning]

/-- Witness for `C7_orp_band` at a reading 8 mV above standard. -/
theorem C7_orp_band_witness : orp_deviation_warning 233 225 = false :=
  (C7_orp_band 233 225).mpr (by norm_num)

/-- C8 counterexample: the DO calibration entry form accepts a
temperature of 5 °C (its widget bounds are 0–50 °C), which is outside
the claimed common range of 10–40 °C. -/
theorem C8_counterexample :
    do_temp_accept 5 = true ∧ ¬ (10 ≤ (5 : ℚ)) := by
  constructor
  · rfl
  · norm_num

/-- C8 amended: the pH, ORP and EC calibration entry forms constrain
temperature to the inclusive range 10–40 °C, but the DO form
constrains it to 0–50 °C instead. -/
theorem C8_temperature_bounds :
    (∀ t : ℚ, ph_temp_accept t = true ↔ 10 ≤ t ∧ t ≤ 40) ∧
    (∀ t : ℚ, orp_temp_accept t = true ↔ 10 ≤ t ∧ t ≤ 40) ∧
    (∀ t : ℚ, ec_temp_accept t = true ↔ 10 ≤ t ∧ t ≤ 40) ∧
    (∀ t : ℚ, do_temp_accept t = true ↔ 0 ≤ t ∧ t ≤ 50) := by
  refine ⟨?_, ?_, ?_, ?_⟩ <;> intro t <;>
    simp [ph_temp_accept, orp_temp_accept, ec_temp_accept, do_temp_accept]

/-! ### The pH to millivolt conversion -/

/-- Round-half-to-even on a rational, the semantics of the Python
built-in `round` applied to the exact value. -/
def roundHalfEven (q : ℚ) : ℤ :=
  if q - ⌊q⌋ < 1/2 then ⌊q⌋
  else if q - ⌊q⌋ > 1/2 then ⌊q⌋ + 1
  else if ⌊q⌋ % 2 = 0 then ⌊q⌋ else ⌊q⌋ + 1

/-- Rounding to one decimal place, `round(x, 1)`. -/
def round1 (q : ℚ) : ℚ := (roundHalfEven (10 * q) : ℚ) / 10

/-- Embedding of `calculate_mv_from_ph` (`src/calibration_page.py`, lines 301-310):
`nernst_factor = 0.198968 * (temperature + 273.15)` and
`mv = -nernst_factor * (ph_value - 7)`, rounded to one decimal place.
The float computation is modelled exactly over the rationals. -/
def calculate_mv_from_ph (ph_value temperature : ℚ) : ℚ :=
  round1 (-((198968 : ℚ)/1000000 * (temperature + 27315/100)) * (ph_value - 7))

/-- C9: the pH-to-mV conversion is the deterministic linear
temperature-scaled formula `-(0.198968 * (T + 273.15)) * (p - 7)`
rounded to one decimal place; pH 7 maps to 0 mV at every temperature,
and at pH 4 and 25 °C it yields 178.0 mV. -/
theorem C9_mv_formula :
    (∀ p T : ℚ, calculate_mv_from_ph p T
      = round1 (-((198968 : ℚ)/1000000 * (T + 27315/100)) * (p - 7))) ∧
    (∀ T : ℚ, calculate_mv_from_ph 7 T = 0) ∧
    calculate_mv_from_ph 4 25 = 178 := by
  refine ⟨fun p T => rfl, ?_, ?_⟩
  · intro T
    have h : -((198968 : ℚ)/1000000 * (T + 27315/100)) * ((7 : ℚ) - 7) = 0 := by ring
    rw [calculate_mv_from_ph, h]
    rw [round1, show (10 : ℚ) * 0 = 0 by ring]
    norm_num [roundHalfEven]
  · rw [calculate_mv_from_ph]
    norm_num [round1, roundHalfEven]

/-- Witness for `C9_mv_formula` instantiated at pH 7 and 25 °C. -/
theorem C9_mv_formula_witness : calculate_mv_from_ph 7 25 = 0 :=
  C9_mv_formula.2.1 25

/-- C10: the slope warning guard `slope > 85 or slope < 115` is
satisfied by every value the slope widgets can deliver (the inputs are
restricted to 85..115), so the out-of-range warning is emitted for
every permissible slope, including every in-range one. -/
theorem C10_slope_guard_always_true (v : ℤ) (h85 : 85 ≤ v) (h115 : v ≤ 115) :
    slope_warning_guard v = true := by
  rw [slope_warning_guard]
  rcases lt_or_ge v 115 with h | h
  · simp [h]
  · have : v > 85 := by omega
    simp [this]

/-- Witness for `C10_slope_guard_always_true` at the ideal slope
value 100. -/
theorem C10_slope_guard_witness : slope_warning_guard 100 = true :=
  C10_slope_guard_always_true 100 (by norm_num) (by norm_num)

end Kcal
